import Mathlib

/-!
Verification of the AI-assistant hotkey application (ai_assistant_final.py,
ai_assistant_minimal.py, ai_assistant.py) against its specification.

The Python code is shallowly embedded: exception-raising calls to the outside
world (pyperclip, subprocess) are modelled by explicit outcome values carried
in an environment record, and the `try`/`except` control flow of each Python
function is mirrored by pattern matches on those outcomes.  Strings are Lean
`String`s (Python code points correspond to `Char`s in `String.data`), and
Python `str.strip()` is modelled by `pyStrip`.
-/

/-- Python string truthiness: a `str` is truthy iff it is non-empty. -/
def pyTruthy (s : String) : Bool := !s.isEmpty

/-- Python slicing `s[:n]`: the first `n` code points of `s`. -/
def pySlice (s : String) (n : Nat) : String := ⟨s.data.take n⟩

/-- Python `str.strip()`: drop whitespace from both ends. -/
def pyStrip (s : String) : String :=
  ⟨((s.data.dropWhile Char.isWhitespace).reverse.dropWhile Char.isWhitespace).reverse⟩

/-- `sys.platform` values distinguished by the code. -/
inductive Platform
  | darwin
  | win32
  | linuxOther
deriving DecidableEq, Repr

/-- A Python exception, as far as the clipboard code distinguishes them:
`except FileNotFoundError` branches treat `fileNotFound` specially; every
other exception is only caught by blanket `except Exception` handlers. -/
inductive PyExc
  | fileNotFound
  | other (msg : String)
deriving DecidableEq, Repr

/-- Outcome of one `subprocess.run` / `Popen`+`communicate` invocation:
either it completes with a captured stdout and a return code, or it raises. -/
inductive RunRes
  | ok (stdout : String) (returncode : Int)
  | exn (e : PyExc)
deriving DecidableEq, Repr

/-- Environment for `ClipboardManager.get_clipboard_text`: availability of
pyperclip, outcome of `pyperclip.paste()`, the running platform, and the
outcome of each system command the function may run. -/
structure GetEnv where
  hasPyperclip : Bool
  pasteRes : Except PyExc String
  platform : Platform
  pbpasteRun : RunRes
  psGetClipRun : RunRes
  xclipRun : RunRes
  xselRun : RunRes
deriving Repr

/-- Environment for `ClipboardManager.set_clipboard_text`: availability of
pyperclip, outcome of `pyperclip.copy(text)`, the running platform, and the
outcome of each write command (its return code, or the exception raised). -/
structure SetEnv where
  hasPyperclip : Bool
  copyRes : Except PyExc Unit
  platform : Platform
  pbcopyRun : RunRes
  clipRun : RunRes
  xclipWRun : RunRes
  xselWRun : RunRes
deriving Repr

namespace ClipboardManager

/-- The body of the outer `try` of `get_clipboard_text` (the platform-command
fallback, lines 73-94 of ai_assistant_final.py): `.error e` means the Python
block raises `e`, to be caught by the enclosing `except Exception`. -/
def get_platform_block (env : GetEnv) : Except PyExc String :=
  match env.platform with
  | .darwin =>
    match env.pbpasteRun with
    | .ok out _ => .ok out
    | .exn e => .error e
  | .win32 =>
    match env.psGetClipRun with
    | .ok out _ => .ok (pyStrip out)
    | .exn e => .error e
  | .linuxOther =>
    match env.xclipRun with
    | .ok out _ => .ok out
    | .exn .fileNotFound =>
      match env.xselRun with
      | .ok out _ => .ok out
      | .exn .fileNotFound => .ok ""
      | .exn e => .error e
    | .exn e => .error e

/-- `ClipboardManager.get_clipboard_text` (ai_assistant_final.py lines 62-97):
pyperclip first when present, then the platform commands; the outer
`except Exception` turns any escaping exception into `""`. -/
def get_clipboard_text (env : GetEnv) : String :=
  match (if env.hasPyperclip then some env.pasteRes else none) with
  | some (.ok s) => s
  | _ =>
    match get_platform_block env with
    | .ok s => s
    | .error _ => ""

/-- The body of the outer `try` of `set_clipboard_text` (lines 111-134):
on normal completion the Python returns `returncode == 0`. -/
def set_platform_block (env : SetEnv) : Except PyExc Bool :=
  match env.platform with
  | .darwin =>
    match env.pbcopyRun with
    | .ok _ rc => .ok (rc == 0)
    | .exn e => .error e
  | .win32 =>
    match env.clipRun with
    | .ok _ rc => .ok (rc == 0)
    | .exn e => .error e
  | .linuxOther =>
    match env.xclipWRun with
    | .ok _ rc => .ok (rc == 0)
    | .exn .fileNotFound =>
      match env.xselWRun with
      | .ok _ rc => .ok (rc == 0)
      | .exn .fileNotFound => .ok false
      | .exn e => .error e
    | .exn e => .error e

/-- `ClipboardManager.set_clipboard_text` (ai_assistant_final.py lines
99-137): pyperclip first when present, then the platform commands; the outer
`except Exception` turns any escaping exception into `false`. -/
def set_clipboard_text (env : SetEnv) : Bool :=
  match (if env.hasPyperclip then some env.copyRes else none) with
  | some (.ok _) => true
  | _ =>
    match set_platform_block env with
    | .ok b => b
    | .error _ => false

/-- All read backends reachable on `env.platform` raise: pyperclip (when
present) raises, and each platform command the control flow can reach
raises. -/
def allGetFail (env : GetEnv) : Prop :=
  (env.hasPyperclip = true → ∃ e, env.pasteRes = .error e) ∧
  (env.platform = .darwin → ∃ e, env.pbpasteRun = .exn e) ∧
  (env.platform = .win32 → ∃ e, env.psGetClipRun = .exn e) ∧
  (env.platform = .linuxOther → ∃ e, env.xclipRun = .exn e) ∧
  (env.platform = .linuxOther → ∃ e, env.xselRun = .exn e)

/-- All write backends reachable on `env.platform` fail: pyperclip (when
present) raises, and each platform command raises or exits non-zero. -/
def runFails (r : RunRes) : Prop :=
  (∃ e, r = .exn e) ∨ ∃ out rc, r = .ok out rc ∧ rc ≠ 0

def allSetFail (env : SetEnv) : Prop :=
  (env.hasPyperclip = true → ∃ e, env.copyRes = .error e) ∧
  (env.platform = .darwin → runFails env.pbcopyRun) ∧
  (env.platform = .win32 → runFails env.clipRun) ∧
  (env.platform = .linuxOther → runFails env.xclipWRun) ∧
  (env.platform = .linuxOther → runFails env.xselWRun)

/-- The individual clipboard backends the code can use. -/
inductive Backend
  | pyperclipLib
  | macCmd
  | winCmd
  | xclipCmd
  | xselCmd
deriving DecidableEq, Repr

/-- The read environment in which exactly backend `b` is available and the
OS clipboard holds `stored`: the backend's command succeeds and its stdout is
the stored text verbatim; every other backend is unavailable
(pyperclip missing, command binaries not found). -/
def readEnv (b : Backend) (stored : String) : GetEnv :=
  match b with
  | .pyperclipLib =>
    ⟨true, .ok stored, .linuxOther, .exn .fileNotFound, .exn .fileNotFound,
      .exn .fileNotFound, .exn .fileNotFound⟩
  | .macCmd =>
    ⟨false, .error .fileNotFound, .darwin, .ok stored 0, .exn .fileNotFound,
      .exn .fileNotFound, .exn .fileNotFound⟩
  | .winCmd =>
    ⟨false, .error .fileNotFound, .win32, .exn .fileNotFound, .ok stored 0,
      .exn .fileNotFound, .exn .fileNotFound⟩
  | .xclipCmd =>
    ⟨false, .error .fileNotFound, .linuxOther, .exn .fileNotFound,
      .exn .fileNotFound, .ok stored 0, .exn .fileNotFound⟩
  | .xselCmd =>
    ⟨false, .error .fileNotFound, .linuxOther, .exn .fileNotFound,
      .exn .fileNotFound, .exn .fileNotFound, .ok stored 0⟩

/-- The write environment in which exactly backend `b` is available and its
command succeeds with return code 0.  Every write branch of
`set_clipboard_text` pipes `text` to the backend verbatim
(`process.communicate(text.encode())` / `pyperclip.copy(text)`), so a
successful write through `b` leaves the OS clipboard holding exactly the
written text. -/
def writeEnv (b : Backend) : SetEnv :=
  match b with
  | .pyperclipLib =>
    ⟨true, .ok (), .linuxOther, .exn .fileNotFound, .exn .fileNotFound,
      .exn .fileNotFound, .exn .fileNotFound⟩
  | .macCmd =>
    ⟨false, .error .fileNotFound, .darwin, .ok "" 0, .exn .fileNotFound,
      .exn .fileNotFound, .exn .fileNotFound⟩
  | .winCmd =>
    ⟨false, .error .fileNotFound, .win32, .exn .fileNotFound, .ok "" 0,
      .exn .fileNotFound, .exn .fileNotFound⟩
  | .xclipCmd =>
    ⟨false, .error .fileNotFound, .linuxOther, .exn .fileNotFound,
      .exn .fileNotFound, .ok "" 0, .exn .fileNotFound⟩
  | .xselCmd =>
    ⟨false, .error .fileNotFound, .linuxOther, .exn .fileNotFound,
      .exn .fileNotFound, .exn .fileNotFound, .ok "" 0⟩

/-- Write `t` through backend `b` (successfully), then read it back through
the same backend: the text `get_clipboard_text` resolves from the stored
clipboard content `t`. -/
def roundTrip (b : Backend) (t : String) : String :=
  get_clipboard_text (readEnv b t)

end ClipboardManager

/-! ## Selection-capture resolution (HotkeyManager.handle_ctrl_f9) -/

namespace HotkeyCapture

/-- Resolution of the two clipboard snapshots in
`ai_assistant_final.py` lines 344-350:
`selected_text = new_clipboard if new_clipboard else original_clipboard`
(Python string truthiness: use `after` iff it is non-empty). -/
def resolveFinal (before after : String) : String :=
  if pyTruthy after then after else before

/-- Resolution in `ai_assistant.py` lines 389-394:
`selected_text = <post-copy read>` followed by
`if selected_text == original_clipboard: selected_text = original_clipboard`
— the conditional re-assignment is a no-op, so the post-copy snapshot is
always used. -/
def resolvePlain (before after : String) : String :=
  let selected := after
  if selected == before then before else selected

/-- Modelled from the spec (for comparison with the code): if `after`
differs from `before` and is non-empty, use `after`; otherwise fall back to
`before`. -/
def resolveSpec (before after : String) : String :=
  if after ≠ before ∧ ¬ after.isEmpty then after else before

/-- What a Ctrl+F9 handler does with the resolved text. -/
inductive F9Outcome
  | dispatched (text : String)
  | notified (title msg : String)
deriving DecidableEq, Repr

/-- The dispatch decision of `ai_assistant_final.py` lines 356-365:
`if selected_text and selected_text.strip(): process_text(selected_text)`,
else a "no text" notification. -/
def ctrlF9DispatchFinal (selected : String) : F9Outcome :=
  if pyTruthy selected ∧ pyTruthy (pyStrip selected) then
    .dispatched selected
  else
    .notified "🤖 AI Assistant"
      "⚠️ No text selected or clipboard empty.\n💡 Tip: Select text first, then press Ctrl+F9"

/-- The dispatch decision of `ai_assistant_minimal.py` lines 322-330:
`if selected_text.strip(): process_text(selected_text)`, else a "no text"
notification. -/
def ctrlF9DispatchMinimal (selected : String) : F9Outcome :=
  if pyTruthy (pyStrip selected) then
    .dispatched selected
  else
    .notified "AI Assistant" "No text selected or clipboard empty"

/-- `handle_quick_assist` of `ai_assistant_final.py` lines 374-389:
non-blank clipboard text is dispatched with the fixed "Quick analysis: "
prelude; otherwise an "empty clipboard" notification is shown. -/
def quickAssistFinal (clipboard_text : String) : F9Outcome :=
  if pyTruthy clipboard_text ∧ pyTruthy (pyStrip clipboard_text) then
    .dispatched ("Quick analysis: " ++ clipboard_text)
  else
    .notified "🤖 AI Assistant" "📋 Clipboard is empty for quick assist"

/-- `handle_quick_assist` of `ai_assistant_minimal.py` lines 339-352:
non-blank clipboard text is dispatched with the fixed "Quick help: "
prelude. -/
def quickAssistMinimal (clipboard_text : String) : F9Outcome :=
  if pyTruthy (pyStrip clipboard_text) then
    .dispatched ("Quick help: " ++ clipboard_text)
  else
    .notified "AI Assistant" "Clipboard is empty"

/-- `handle_quick_assist` of `ai_assistant.py` lines 409-420: same
"Quick help: " prelude, with a popup window instead of a notification on the
empty case. -/
def quickAssistPlain (clipboard_text : String) : F9Outcome :=
  if pyTruthy (pyStrip clipboard_text) then
    .dispatched ("Quick help: " ++ clipboard_text)
  else
    .notified "PopupWindow" "Clipboard is empty"

end HotkeyCapture

/-! ## The dispatcher: AIAssistant.process_text / run_async / show_response -/

namespace Dispatcher

/-- A notification passed to `NotificationManager.show_notification`. -/
structure Notif where
  title : String
  message : String
deriving DecidableEq, Repr

/-- Result of a submit call. -/
inductive SubmitResult
  | rejected
  | accepted
deriving DecidableEq, Repr

/-- Observable state of an `AIAssistant`: the `is_processing` flag, the
number of currently active processing sessions (started worker threads whose
`finally` has not yet run), and the notifications shown so far. -/
structure AsstState where
  is_processing : Bool
  activeSessions : Nat
  notifs : List Notif
deriving DecidableEq, Repr

/-- `AIAssistant.process_text` of `ai_assistant_final.py` lines 217-245
(sequential semantics): when `is_processing` is set the call logs, shows a
busy notification and returns; otherwise it sets the flag and starts one
worker thread (a new session). -/
def process_text_final (st : AsstState) : SubmitResult × AsstState :=
  if st.is_processing then
    (.rejected,
      { st with
        notifs := st.notifs ++ [⟨"AI Assistant", "Already processing previous request..."⟩] })
  else
    (.accepted,
      { st with is_processing := true, activeSessions := st.activeSessions + 1 })

/-- `AIAssistant.process_text` of `ai_assistant_minimal.py` lines 160-183:
when `is_processing` is set the call only logs and returns (no
notification); otherwise it sets the flag and starts one worker thread. -/
def process_text_minimal (st : AsstState) : SubmitResult × AsstState :=
  if st.is_processing then
    (.rejected, st)
  else
    (.accepted,
      { st with is_processing := true, activeSessions := st.activeSessions + 1 })

/-- `AIAssistant.process_text` of `ai_assistant.py` lines 292-315: the busy
branch likewise only logs and returns. -/
def process_text_plain (st : AsstState) : SubmitResult × AsstState :=
  if st.is_processing then
    (.rejected, st)
  else
    (.accepted,
      { st with is_processing := true, activeSessions := st.activeSessions + 1 })

/-- State threaded through one worker (`run_async`) and its result
presenter: the flag, the active-session count, and the responses handed to
the presenter (`show_response` / `response_ready.emit`). -/
structure WorkerState where
  is_processing : Bool
  activeSessions : Nat
  presented : List String
deriving DecidableEq, Repr

/-- One presenter invocation (appends the response to the record). -/
def present (st : WorkerState) (response : String) : WorkerState :=
  { st with presented := st.presented ++ [response] }

/-- The worker body `run_async` of `ai_assistant_final.py` lines 230-241,
parameterised by the outcome of `loop.run_until_complete(process_text_async
text)`: `.ok r` is a returned result, `.error e` an exception message.  The
`try` branch presents the result, the `except` branch presents
`"❌ Error: " ++ e`, and the `finally` clears `is_processing` (ending the
session) in every case. -/
def run_async_final (st : WorkerState) (outcome : Except String String) : WorkerState :=
  let afterTry :=
    match outcome with
    | .ok r => present st r
    | .error e => present st ("❌ Error: " ++ e)
  { afterTry with is_processing := false, activeSessions := afterTry.activeSessions - 1 }

/-- The worker body `run_async` of `ai_assistant_minimal.py` lines 168-179:
identical control flow, with the error presented as `"Error: " ++ e`. -/
def run_async_minimal (st : WorkerState) (outcome : Except String String) : WorkerState :=
  let afterTry :=
    match outcome with
    | .ok r => present st r
    | .error e => present st ("Error: " ++ e)
  { afterTry with is_processing := false, activeSessions := afterTry.activeSessions - 1 }

/-- Sequential life-cycle events of the final assistant: a submit call, or
the completion (`run_async` finishing, `finally` included) of the running
session with the given AI outcome. -/
inductive Event
  | submit
  | complete
deriving DecidableEq, Repr

/-- One life-cycle step (final implementation, sequential semantics): a
submit goes through `process_text_final`; a completion clears the flag and
ends the session as `run_async`'s `finally` does (a no-op when no session is
active). -/
def step (st : AsstState) (e : Event) : AsstState :=
  match e with
  | .submit => (process_text_final st).2
  | .complete =>
    if st.activeSessions = 0 then st
    else { st with is_processing := false, activeSessions := st.activeSessions - 1 }

/-- Run a sequence of life-cycle events. -/
def run (es : List Event) (st : AsstState) : AsstState :=
  es.foldl step st

/-- The initial assistant state (`__init__`, line 179:
`self.is_processing = False`). -/
def init : AsstState := ⟨false, 0, []⟩

/-- The single-flight invariant. -/
def Inv (st : AsstState) : Prop :=
  st.activeSessions ≤ 1 ∧ (st.is_processing = true ↔ st.activeSessions = 1)

end Dispatcher

/-! ## Interleaved semantics of two concurrent process_text calls

`process_text` guards admission with `if self.is_processing: return` followed
by `self.is_processing = True` — a read of the flag and a later write, with
no lock.  Each of two concurrent calls is modelled as two atomic steps (the
check, then the set-and-spawn), and a schedule chooses the interleaving. -/

namespace Concurrent

/-- Position of one thread inside `process_text`: before the
`if self.is_processing` check, between the check and
`self.is_processing = True`, or returned (with its admission result). -/
inductive TPos
  | atCheck
  | passedCheck
  | done (accepted : Bool)
deriving DecidableEq, Repr

/-- Which of the two concurrent callers moves. -/
inductive Tid
  | tA
  | tB
deriving DecidableEq, Repr

/-- Shared state plus both thread positions. -/
structure CState where
  flag : Bool
  sessions : Nat
  posA : TPos
  posB : TPos
deriving DecidableEq, Repr

/-- One atomic step of a thread at `pos` against the shared flag: the check
reads the flag (rejecting if set), the second step writes the flag and
starts a session.  Returns the new position, flag and session count. -/
def threadStep (pos : TPos) (flag : Bool) (sessions : Nat) : TPos × Bool × Nat :=
  match pos with
  | .atCheck => if flag then (.done false, flag, sessions) else (.passedCheck, flag, sessions)
  | .passedCheck => (.done true, true, sessions + 1)
  | .done r => (.done r, flag, sessions)

/-- Step the scheduled thread. -/
def cstep (s : CState) (t : Tid) : CState :=
  match t with
  | .tA =>
    let (p, f, n) := threadStep s.posA s.flag s.sessions
    { s with posA := p, flag := f, sessions := n }
  | .tB =>
    let (p, f, n) := threadStep s.posB s.flag s.sessions
    { s with posB := p, flag := f, sessions := n }

/-- Run a schedule (an interleaving of the two callers). -/
def crun (sched : List Tid) (s : CState) : CState :=
  sched.foldl cstep s

/-- Both callers start at the check with the assistant idle. -/
def cinit : CState := ⟨false, 0, .atCheck, .atCheck⟩

end Concurrent

/-! ## The result presenter: AIAssistant.show_response -/

namespace Presenter

/-- Everything `show_response` emits for one response. -/
structure Shown where
  notif : Dispatcher.Notif
  consoleLines : List String
  logLine : String
deriving DecidableEq, Repr

/-- `AIAssistant.show_response` of `ai_assistant_final.py` lines 247-263:
responses longer than 200 characters are truncated to `response[:197]+"..."`
for the notification, the full response is printed to the console between
separator lines, and the log records a 50-character snippet. -/
def show_response_final (response : String) : Shown :=
  let display_response :=
    if response.length > 200 then pySlice response 197 ++ "..." else response
  { notif := ⟨"🤖 AI Assistant", display_response⟩
    consoleLines :=
      [⟨List.replicate 50 '='⟩, "🤖 AI Response:", response, ⟨List.replicate 50 '='⟩]
    logLine := "Response shown: " ++ pySlice response 50 ++ "..." }

/-- `AIAssistant.show_response` of `ai_assistant_minimal.py` lines 185-191:
the response is passed to the notification unmodified (no truncation, no
console print). -/
def show_response_minimal (response : String) : Shown :=
  { notif := ⟨"AI Assistant", response⟩
    consoleLines := []
    logLine := "Response shown: " ++ pySlice response 50 ++ "..." }

end Presenter

/-! ## Shared helper lemmas -/

/-- A string is truthy in Python iff it is not `""`. -/
theorem pyTruthy_eq_true_iff (s : String) : pyTruthy s = true ↔ s ≠ "" := by
  constructor
  · intro h hs
    subst hs
    exact absurd h (by decide)
  · intro h
    unfold pyTruthy
    cases hb : s.isEmpty with
    | false => rfl
    | true => exact absurd ((String.isEmpty_iff s).mp hb) h

/-- The empty string strips to itself. -/
theorem pyStrip_empty : pyStrip "" = "" := rfl

/-- A string with a non-blank strip is itself truthy. -/
theorem pyTruthy_of_pyStrip_ne (s : String) (h : pyStrip s ≠ "") : pyTruthy s = true := by
  rw [pyTruthy_eq_true_iff]
  intro hs
  subst hs
  exact h pyStrip_empty

/-- Prepending a non-empty literal changes the string. -/
theorem prepend_ne (p t : String) (hp : p.length ≠ 0) : p ++ t ≠ t := by
  intro h
  have h2 := congrArg String.length h
  simp [String.length_append] at h2
  exact hp h2

namespace ClipboardManager

/-- Either pyperclip is absent or its read raised. -/
def pyperclipGetMiss (env : GetEnv) : Prop :=
  env.hasPyperclip = false ∨ ∃ e, env.pasteRes = .error e

/-- Either pyperclip is absent or its write raised. -/
def pyperclipSetMiss (env : SetEnv) : Prop :=
  env.hasPyperclip = false ∨ ∃ e, env.copyRes = .error e

/-- When pyperclip does not answer, `get_clipboard_text` is the guarded
platform block. -/
theorem get_clipboard_text_of_miss (env : GetEnv) (h : pyperclipGetMiss env) :
    get_clipboard_text env =
      match get_platform_block env with
      | .ok s => s
      | .error _ => "" := by
  unfold get_clipboard_text
  rcases h with h | ⟨e, he⟩
  · rw [h]; rfl
  · cases hp : env.hasPyperclip <;> simp [hp, he]

/-- When pyperclip does not answer, `set_clipboard_text` is the guarded
platform block. -/
theorem set_clipboard_text_of_miss (env : SetEnv) (h : pyperclipSetMiss env) :
    set_clipboard_text env =
      match set_platform_block env with
      | .ok b => b
      | .error _ => false := by
  unfold set_clipboard_text
  rcases h with h | ⟨e, he⟩
  · rw [h]; rfl
  · cases hp : env.hasPyperclip <;> simp [hp, he]

/-- The Linux read environment where xclip is installed but raises an error
other than `FileNotFoundError`, while xsel is installed and would answer
`"x"`. -/
def xclipErrEnv : GetEnv :=
  ⟨false, .error .fileNotFound, .linuxOther, .exn .fileNotFound,
    .exn .fileNotFound, .exn (.other "xclip crashed"), .ok "x" 0⟩

end ClipboardManager

/-! ## C4: clipboard backend fallback policy -/

/-- C4 (counterexample to the claim as stated): with pyperclip absent, xclip
raising an error other than `FileNotFoundError`, and xsel available holding
`"x"`, the read returns `""` — the first (and only) successful backend, xsel,
is never tried and does not win, even though not all backends failed. -/
theorem get_clipboard_text_first_success_fails :
    ClipboardManager.get_clipboard_text ClipboardManager.xclipErrEnv = "" ∧
    ClipboardManager.xclipErrEnv.xselRun = .ok "x" 0 ∧ ("" : String) ≠ "x" :=
  ⟨rfl, rfl, by decide⟩

/-- C4 (amended): `get_clipboard_text` and `set_clipboard_text` never raise
(they are total, returning `""` resp. `false` when every reachable backend
fails); backends are tried in priority order — pyperclip first, then the
platform command, with xsel on Linux attempted only when the xclip binary is
missing (`FileNotFoundError`); an xclip failure of any other kind ends the
read with `""` (the write with `false`) without trying xsel; otherwise the
first success wins. -/
theorem clipboard_fallback_policy :
    (∀ env s, env.hasPyperclip = true → env.pasteRes = .ok s →
      ClipboardManager.get_clipboard_text env = s) ∧
    (∀ env s rc, ClipboardManager.pyperclipGetMiss env → env.platform = .darwin →
      env.pbpasteRun = .ok s rc → ClipboardManager.get_clipboard_text env = s) ∧
    (∀ env s rc, ClipboardManager.pyperclipGetMiss env → env.platform = .linuxOther →
      env.xclipRun = .ok s rc → ClipboardManager.get_clipboard_text env = s) ∧
    (∀ env s rc, ClipboardManager.pyperclipGetMiss env → env.platform = .linuxOther →
      env.xclipRun = .exn .fileNotFound → env.xselRun = .ok s rc →
      ClipboardManager.get_clipboard_text env = s) ∧
    (∀ env m, ClipboardManager.pyperclipGetMiss env → env.platform = .linuxOther →
      env.xclipRun = .exn (.other m) → ClipboardManager.get_clipboard_text env = "") ∧
    (∀ env, ClipboardManager.allGetFail env →
      ClipboardManager.get_clipboard_text env = "") ∧
    (∀ env, env.hasPyperclip = true → env.copyRes = .ok () →
      ClipboardManager.set_clipboard_text env = true) ∧
    (∀ env m, ClipboardManager.pyperclipSetMiss env → env.platform = .linuxOther →
      env.xclipWRun = .exn (.other m) → ClipboardManager.set_clipboard_text env = false) ∧
    (∀ env, ClipboardManager.allSetFail env →
      ClipboardManager.set_clipboard_text env = false) := by
  refine ⟨?_, ?_, ?_, ?_, ?_, ?_, ?_, ?_, ?_⟩
  · intro env s h1 h2
    unfold ClipboardManager.get_clipboard_text
    simp [h1, h2]
  · intro env s rc hm hp hr
    rw [ClipboardManager.get_clipboard_text_of_miss env hm]
    simp [ClipboardManager.get_platform_block, hp, hr]
  · intro env s rc hm hp hr
    rw [ClipboardManager.get_clipboard_text_of_miss env hm]
    simp [ClipboardManager.get_platform_block, hp, hr]
  · intro env s rc hm hp hr hx
    rw [ClipboardManager.get_clipboard_text_of_miss env hm]
    simp [ClipboardManager.get_platform_block, hp, hr, hx]
  · intro env m hm hp hr
    rw [ClipboardManager.get_clipboard_text_of_miss env hm]
    simp [ClipboardManager.get_platform_block, hp, hr]
  · intro env h
    obtain ⟨h1, h2, h3, h4, h5⟩ := h
    have hm : ClipboardManager.pyperclipGetMiss env := by
      cases hp : env.hasPyperclip
      · exact .inl hp
      · exact .inr (h1 hp)
    rw [ClipboardManager.get_clipboard_text_of_miss env hm]
    cases hplat : env.platform with
    | darwin =>
      obtain ⟨e, he⟩ := h2 hplat
      simp [ClipboardManager.get_platform_block, hplat, he]
    | win32 =>
      obtain ⟨e, he⟩ := h3 hplat
      simp [ClipboardManager.get_platform_block, hplat, he]
    | linuxOther =>
      obtain ⟨e, he⟩ := h4 hplat
      obtain ⟨e2, he2⟩ := h5 hplat
      cases e with
      | fileNotFound =>
        cases e2 <;> simp [ClipboardManager.get_platform_block, hplat, he, he2]
      | other m =>
        simp [ClipboardManager.get_platform_block, hplat, he]
  · intro env h1 h2
    unfold ClipboardManager.set_clipboard_text
    simp [h1, h2]
  · intro env m hm hp hr
    rw [ClipboardManager.set_clipboard_text_of_miss env hm]
    simp [ClipboardManager.set_platform_block, hp, hr]
  · intro env h
    obtain ⟨h1, h2, h3, h4, h5⟩ := h
    have hm : ClipboardManager.pyperclipSetMiss env := by
      cases hp : env.hasPyperclip
      · exact .inl hp
      · exact .inr (h1 hp)
    rw [ClipboardManager.set_clipboard_text_of_miss env hm]
    cases hplat : env.platform with
    | darwin =>
      rcases h2 hplat with ⟨e, he⟩ | ⟨out, rc, he, hrc⟩
      · simp [ClipboardManager.set_platform_block, hplat, he]
      · simp [ClipboardManager.set_platform_block, hplat, he, hrc]
    | win32 =>
      rcases h3 hplat with ⟨e, he⟩ | ⟨out, rc, he, hrc⟩
      · simp [ClipboardManager.set_platform_block, hplat, he]
      · simp [ClipboardManager.set_platform_block, hplat, he, hrc]
    | linuxOther =>
      rcases h4 hplat with ⟨e, he⟩ | ⟨out, rc, he, hrc⟩
      · cases e with
        | fileNotFound =>
          rcases h5 hplat with ⟨e2, he2⟩ | ⟨out2, rc2, he2, hrc2⟩
          · cases e2 <;> simp [ClipboardManager.set_platform_block, hplat, he, he2]
          · simp [ClipboardManager.set_platform_block, hplat, he, he2, hrc2]
        | other m =>
          simp [ClipboardManager.set_platform_block, hplat, he]
      · simp [ClipboardManager.set_platform_block, hplat, he, hrc]

/-- C4 (witness): on Linux with pyperclip missing and the xclip binary
absent, a read through xsel holding `"hello"` returns `"hello"`. -/
theorem clipboard_fallback_policy_witness :
    ClipboardManager.pyperclipGetMiss (ClipboardManager.readEnv .xselCmd "hello") ∧
    ClipboardManager.get_clipboard_text (ClipboardManager.readEnv .xselCmd "hello") = "hello" :=
  ⟨.inl rfl, clipboard_fallback_policy.2.2.2.1 _ "hello" 0 (.inl rfl) rfl rfl rfl⟩

/-! ## C5: clipboard round-trip per backend -/

/-- C5 (counterexample to the claim as stated): on the Windows command
backend, writing `" A "` and reading it back yields `"A"`: the read strips
leading and trailing whitespace, so the round-trip is not the identity. -/
theorem roundTrip_winCmd_strips :
    ClipboardManager.roundTrip .winCmd " A " = "A" ∧ ("A" : String) ≠ " A " :=
  ⟨rfl, by decide⟩

/-- C5 (amended): a successful write through any backend stores the text
verbatim, and reading it back through the same backend returns exactly the
written text on the pyperclip, macOS, xclip and xsel backends; on the
Windows command backend the read applies `.strip()`, so the round-trip
returns the text with leading and trailing whitespace removed (the identity
only for texts without such whitespace). -/
theorem clipboard_roundTrip :
    (∀ b, ClipboardManager.set_clipboard_text (ClipboardManager.writeEnv b) = true) ∧
    (∀ b t, b ≠ .winCmd → ClipboardManager.roundTrip b t = t) ∧
    (∀ t, ClipboardManager.roundTrip .winCmd t = pyStrip t) := by
  refine ⟨?_, ?_, ?_⟩
  · intro b
    cases b <;> rfl
  · intro b t hb
    cases b with
    | pyperclipLib => rfl
    | macCmd => rfl
    | winCmd => exact absurd rfl hb
    | xclipCmd => rfl
    | xselCmd => rfl
  · intro t
    rfl

/-- C5 (witness): the xclip backend round-trips `" A "` exactly, whitespace
included. -/
theorem clipboard_roundTrip_witness :
    ClipboardManager.roundTrip .xclipCmd " A " = " A " :=
  clipboard_roundTrip.2.1 .xclipCmd " A " (by decide)

/-! ## C2: selection-capture resolution -/

/-- C2 (counterexample to the claim as stated): in ai_assistant.py, with
`before = "A"` and an empty post-copy snapshot `after = ""`, the resolved
text is `""`, not the `"A"` the fall-back policy requires. -/
theorem resolvePlain_empty_after_no_fallback :
    HotkeyCapture.resolvePlain "A" "" = "" ∧
    HotkeyCapture.resolveSpec "A" "" = "A" ∧ ("" : String) ≠ "A" := by
  refine ⟨rfl, ?_, by decide⟩
  simp [HotkeyCapture.resolveSpec, String.isEmpty_iff]

/-- C2 (amended): the final implementation resolves the two snapshots
exactly as the spec states (use `after` iff it is non-empty, which agrees
with "use `after` iff it differs and is non-empty" on every pair); the
ai_assistant.py implementation instead always uses the post-copy snapshot
(its restore branch is a no-op), so an empty `after` with a non-empty
`before` resolves to `""` rather than falling back to `before`. -/
theorem capture_resolution :
    (∀ before after : String,
      HotkeyCapture.resolveFinal before after = HotkeyCapture.resolveSpec before after) ∧
    (∀ before after : String, HotkeyCapture.resolvePlain before after = after) := by
  constructor
  · intro b a
    unfold HotkeyCapture.resolveFinal HotkeyCapture.resolveSpec pyTruthy
    by_cases he : a.isEmpty
    · simp [he]
    · by_cases hab : a = b
      · simp [he, hab]
      · simp [he, hab]
  · intro b a
    unfold HotkeyCapture.resolvePlain
    by_cases h : a = b
    · simp [h]
    · simp [h]

/-! ## C7: blank captures are never dispatched -/

/-- C7: whenever the resolved capture text is empty or whitespace-only
(its strip is `""`), neither Ctrl+F9 handler dispatches to `process_text`;
both instead show their "nothing to process" notification. -/
theorem blank_capture_not_dispatched (s : String) (h : pyStrip s = "") :
    HotkeyCapture.ctrlF9DispatchFinal s =
      .notified "🤖 AI Assistant"
        "⚠️ No text selected or clipboard empty.\n💡 Tip: Select text first, then press Ctrl+F9" ∧
    HotkeyCapture.ctrlF9DispatchMinimal s =
      .notified "AI Assistant" "No text selected or clipboard empty" ∧
    (∀ t, HotkeyCapture.ctrlF9DispatchFinal s ≠ .dispatched t) ∧
    (∀ t, HotkeyCapture.ctrlF9DispatchMinimal s ≠ .dispatched t) := by
  have hblank : pyTruthy (pyStrip s) = false := by
    rw [h]
    rfl
  have h1 : HotkeyCapture.ctrlF9DispatchFinal s =
      .notified "🤖 AI Assistant"
        "⚠️ No text selected or clipboard empty.\n💡 Tip: Select text first, then press Ctrl+F9" := by
    unfold HotkeyCapture.ctrlF9DispatchFinal
    simp [hblank]
  have h2 : HotkeyCapture.ctrlF9DispatchMinimal s =
      .notified "AI Assistant" "No text selected or clipboard empty" := by
    unfold HotkeyCapture.ctrlF9DispatchMinimal
    simp [hblank]
  refine ⟨h1, h2, ?_, ?_⟩
  · intro t hc
    rw [h1] at hc
    exact HotkeyCapture.F9Outcome.noConfusion hc
  · intro t hc
    rw [h2] at hc
    exact HotkeyCapture.F9Outcome.noConfusion hc

/-- C7 (witness): the whitespace-only capture `" \t "` is not dispatched. -/
theorem blank_capture_not_dispatched_witness :
    pyStrip " \t " = "" ∧
    HotkeyCapture.ctrlF9DispatchMinimal " \t " =
      .notified "AI Assistant" "No text selected or clipboard empty" :=
  ⟨rfl, (blank_capture_not_dispatched " \t " rfl).2.1⟩

/-! ## C10: quick assist prepends a fixed prelude -/

/-- C10: for every non-blank clipboard text, each quick-assist handler
dispatches the clipboard text with its fixed prelude prepended
("Quick analysis: " in the final implementation, "Quick help: " in the
others), and the dispatched text is never the raw clipboard text itself. -/
theorem quick_assist_prepends (t : String) (h : pyStrip t ≠ "") :
    HotkeyCapture.quickAssistFinal t = .dispatched ("Quick analysis: " ++ t) ∧
    HotkeyCapture.quickAssistMinimal t = .dispatched ("Quick help: " ++ t) ∧
    HotkeyCapture.quickAssistPlain t = .dispatched ("Quick help: " ++ t) ∧
    ("Quick analysis: " ++ t) ≠ t ∧ ("Quick help: " ++ t) ≠ t := by
  have ht : pyTruthy t = true := pyTruthy_of_pyStrip_ne t h
  have hst : pyTruthy (pyStrip t) = true := by
    rw [pyTruthy_eq_true_iff]
    exact h
  refine ⟨?_, ?_, ?_, ?_, ?_⟩
  · unfold HotkeyCapture.quickAssistFinal
    simp [ht, hst]
  · unfold HotkeyCapture.quickAssistMinimal
    simp [hst]
  · unfold HotkeyCapture.quickAssistPlain
    simp [hst]
  · exact prepend_ne _ t (by decide)
  · exact prepend_ne _ t (by decide)

/-- C10 (witness): quick assist on clipboard text `"hi"` dispatches the
prefixed text, not the raw clipboard content. -/
theorem quick_assist_prepends_witness :
    pyStrip "hi" ≠ "" ∧
    HotkeyCapture.quickAssistFinal "hi" = .dispatched "Quick analysis: hi" :=
  ⟨by decide, (quick_assist_prepends "hi" (by decide)).1⟩

/-! ## C1: single-flight admission -/

namespace Dispatcher

/-- Every life-cycle step preserves the single-flight invariant. -/
theorem step_inv (st : AsstState) (e : Event) (h : Inv st) : Inv (step st e) := by
  obtain ⟨h1, h2⟩ := h
  cases e with
  | submit =>
    unfold step process_text_final
    by_cases hp : st.is_processing = true
    · simp only [hp, if_true]
      rw [hp] at h2
      exact ⟨h1, h2⟩
    · have hp' : st.is_processing = false := by
        cases hq : st.is_processing
        · rfl
        · exact absurd hq hp
      have hs0 : st.activeSessions = 0 := by
        rcases Nat.lt_or_ge st.activeSessions 1 with hlt | hge
        · omega
        · exfalso
          have : st.activeSessions = 1 := by omega
          rw [hp'] at h2
          exact Bool.false_ne_true (h2.mpr this)
      simp only [hp', if_false, Bool.false_eq_true]
      exact ⟨by simp [hs0], by simp [hs0]⟩
  | complete =>
    unfold step
    by_cases hz : st.activeSessions = 0
    · simp only [hz, if_true]
      exact ⟨h1, h2⟩
    · simp only [hz, if_false]
      have h1' : st.activeSessions = 1 := by omega
      constructor
      · show st.activeSessions - 1 ≤ 1
        omega
      · show (false = true ↔ st.activeSessions - 1 = 1)
        simp [h1']

/-- Running any event sequence from an invariant state stays invariant. -/
theorem run_inv (es : List Event) (st : AsstState) (h : Inv st) : Inv (run es st) := by
  induction es generalizing st with
  | nil => exact h
  | cons e es ih => exact ih (step st e) (step_inv st e h)

end Dispatcher

/-- C1: a submit while a session is active is rejected and changes neither
the `is_processing` flag nor the set of active sessions (the final
implementation only appends a busy notification; the minimal one returns the
state untouched); consequently, along every sequence of submit and complete
events from the initial state, at most one ProcessingSession is ever active,
and the flag is set exactly while one is. -/
theorem single_flight (st : Dispatcher.AsstState) (es : List Dispatcher.Event)
    (h : st.is_processing = true) :
    ((Dispatcher.process_text_final st).1 = .rejected ∧
      (Dispatcher.process_text_final st).2.is_processing = st.is_processing ∧
      (Dispatcher.process_text_final st).2.activeSessions = st.activeSessions ∧
      Dispatcher.process_text_minimal st = (.rejected, st) ∧
      Dispatcher.process_text_plain st = (.rejected, st)) ∧
    ((Dispatcher.run es Dispatcher.init).activeSessions ≤ 1 ∧
      ((Dispatcher.run es Dispatcher.init).is_processing = true ↔
        (Dispatcher.run es Dispatcher.init).activeSessions = 1)) := by
  constructor
  · refine ⟨?_, ?_, ?_, ?_, ?_⟩ <;>
      simp [Dispatcher.process_text_final, Dispatcher.process_text_minimal,
        Dispatcher.process_text_plain, h]
  · exact Dispatcher.run_inv es Dispatcher.init (by constructor <;> simp [Dispatcher.init, Dispatcher.Inv])

/-- C1 (witness): with a session active, a second submit is rejected and the
session state is unchanged; after the events submit, submit, the run still
has a single active session. -/
theorem single_flight_witness :
    (Dispatcher.process_text_minimal ⟨true, 1, []⟩ = (.rejected, ⟨true, 1, []⟩)) ∧
    (Dispatcher.run [.submit, .submit] Dispatcher.init).activeSessions ≤ 1 :=
  ⟨((single_flight ⟨true, 1, []⟩ [.submit, .submit] rfl).1).2.2.2.1,
    ((single_flight ⟨true, 1, []⟩ [.submit, .submit] rfl).2).1⟩

/-! ## C3: the admission check-then-set is not atomic -/

/-- The interleaving in which both callers run their `if self.is_processing`
check before either executes `self.is_processing = True`. -/
def raceSched : List Concurrent.Tid := [.tA, .tB, .tA, .tB]

/-- C3: `process_text` guards admission with a plain read of
`is_processing` followed later by a write, with no lock; under the
interleaving check-A, check-B, set-A, set-B both near-simultaneous calls
observe the idle state, both are accepted, and two ProcessingSessions are
created — the claimed atomic test-and-set mutual exclusion does not hold. -/
theorem race_both_accepted :
    (Concurrent.crun raceSched Concurrent.cinit).posA = .done true ∧
    (Concurrent.crun raceSched Concurrent.cinit).posB = .done true ∧
    (Concurrent.crun raceSched Concurrent.cinit).sessions = 2 := by
  refine ⟨rfl, rfl, rfl⟩

/-! ## C6: every completion clears the session and presents once -/

/-- C6: whatever the AI call does — return a result or raise — the worker
body clears `is_processing`, ends the session, and hands exactly one
response to the result presenter: the successful output, or the
error-derived message. -/
theorem completion_clears_and_presents_once (st : Dispatcher.WorkerState)
    (outcome : Except String String) :
    (Dispatcher.run_async_final st outcome).is_processing = false ∧
    (Dispatcher.run_async_minimal st outcome).is_processing = false ∧
    (Dispatcher.run_async_final st outcome).activeSessions = st.activeSessions - 1 ∧
    (Dispatcher.run_async_minimal st outcome).activeSessions = st.activeSessions - 1 ∧
    (Dispatcher.run_async_final st outcome).presented =
      st.presented ++ [match outcome with
        | .ok r => r
        | .error e => "❌ Error: " ++ e] ∧
    (Dispatcher.run_async_minimal st outcome).presented =
      st.presented ++ [match outcome with
        | .ok r => r
        | .error e => "Error: " ++ e] := by
  cases outcome <;>
    simp [Dispatcher.run_async_final, Dispatcher.run_async_minimal, Dispatcher.present]

/-! ## C9: how a rejected submit is reported -/

/-- The state in which a session is already active and no notification has
been shown yet. -/
def busySt : Dispatcher.AsstState := ⟨true, 1, []⟩

/-- C9 (counterexample to the claim as stated): in ai_assistant_minimal.py a
submit made while a session is active is rejected with no notification at
all — the rejection is silent for the user, not a "busy" notice. -/
theorem rejected_submit_silent_minimal :
    (Dispatcher.process_text_minimal busySt).1 = .rejected ∧
    (Dispatcher.process_text_minimal busySt).2.notifs = [] :=
  ⟨rfl, rfl⟩

/-- C9 (amended): only the final implementation reports a rejected submit to
the user, as the transient busy notice "Already processing previous
request..."; the minimal and PyQt implementations log the rejection and
return with no user-visible notification. -/
theorem rejected_submit_reporting (st : Dispatcher.AsstState)
    (h : st.is_processing = true) :
    (Dispatcher.process_text_final st).1 = .rejected ∧
    (Dispatcher.process_text_final st).2.notifs =
      st.notifs ++ [⟨"AI Assistant", "Already processing previous request..."⟩] ∧
    (Dispatcher.process_text_minimal st).2.notifs = st.notifs ∧
    (Dispatcher.process_text_plain st).2.notifs = st.notifs := by
  refine ⟨?_, ?_, ?_, ?_⟩ <;>
    simp [Dispatcher.process_text_final, Dispatcher.process_text_minimal,
      Dispatcher.process_text_plain, h]

/-- C9 (witness): in the busy state the final implementation shows exactly
the busy notice. -/
theorem rejected_submit_reporting_witness :
    busySt.is_processing = true ∧
    (Dispatcher.process_text_final busySt).2.notifs =
      [⟨"AI Assistant", "Already processing previous request..."⟩] :=
  ⟨rfl, (rejected_submit_reporting busySt rfl).2.1⟩

/-! ## C8: display truncation of responses -/

/-- A 201-character response. -/
def longResp : String := ⟨List.replicate 201 'a'⟩

/-- C8 (counterexample to the claim as stated): ai_assistant_minimal.py
passes the response to the notification unmodified, so a 201-character
response is displayed with 201 characters — beyond the claimed 200-character
bound. -/
theorem show_response_minimal_unbounded :
    (Presenter.show_response_minimal longResp).notif.message = longResp ∧
    longResp.length = 201 ∧ ¬(201 ≤ 200) :=
  ⟨rfl, rfl, by decide⟩

/-- C8 (amended): the final implementation truncates the displayed
notification text to at most 200 characters (responses over the bound become
their first 197 characters plus "..."), shows responses within the bound
unchanged, and still prints the full un-truncated response to the console;
the minimal implementation displays the response unmodified, with no
bound. -/
theorem show_response_truncation (response : String) :
    ((Presenter.show_response_final response).notif.message).length ≤ 200 ∧
    (response.length ≤ 200 →
      (Presenter.show_response_final response).notif.message = response) ∧
    (200 < response.length →
      ((Presenter.show_response_final response).notif.message).length = 200) ∧
    response ∈ (Presenter.show_response_final response).consoleLines ∧
    (Presenter.show_response_minimal response).notif.message = response := by
  have hslice : (pySlice response 197 ++ "...").length = min 197 response.length + 3 := by
    rw [String.length_append]
    have h1 : (pySlice response 197).length = min 197 response.length :=
      List.length_take 197 response.data
    rw [h1]
    rfl
  by_cases h : response.length > 200
  · have hmsg : (Presenter.show_response_final response).notif.message =
        pySlice response 197 ++ "..." := by
      simp [Presenter.show_response_final, h]
    refine ⟨?_, ?_, ?_, ?_, rfl⟩
    · rw [hmsg, hslice]
      omega
    · intro hle
      omega
    · intro _
      rw [hmsg, hslice]
      omega
    · simp [Presenter.show_response_final]
  · have hmsg : (Presenter.show_response_final response).notif.message = response := by
      simp [Presenter.show_response_final, h]
    refine ⟨?_, fun _ => hmsg, ?_, ?_, rfl⟩
    · rw [hmsg]
      omega
    · intro hgt
      omega
    · simp [Presenter.show_response_final]

/-- C8 (witness): the short response `"ok"` is displayed unchanged, within
the bound. -/
theorem show_response_truncation_witness :
    ("ok" : String).length ≤ 200 ∧
    (Presenter.show_response_final "ok").notif.message = "ok" :=
  ⟨by decide, (show_response_truncation "ok").2.1 (by decide)⟩
